import Mathlib

/-!
Verification of the EDA profiling engine and its CLI/HTTP adapters.

The core profiling components (ColumnProfiler, DatasetSummarizer,
MissingAnalyzer, CorrelationComputer, CategoryProfiler, QualityFlagEngine)
are embedded from the specification, since only the adapters (cli.py and
api.py) and the test suite are available as source.  The adapter
definitions (`cli_load_csv`, the `api_*` endpoint handlers) are embedded
from the source files `src/eda_cli/cli.py` (HW03) and `src/eda_cli/api.py`
(HW04).
-/

namespace EdaCli

/-- Scalar cell value of a column: numeric, text or boolean storage. -/
inductive Value : Type
  | num (q : ℚ)
  | str (s : String)
  | bool (b : Bool)
deriving DecidableEq, Repr

/-- Storage type tag of a column, decided once when the Table is built
(spec section 9: explicit tagged union, no content sniffing). -/
inductive Dtype : Type
  | numeric
  | text
  | boolean
  | datetime
deriving DecidableEq, Repr

/-- Modelled from the spec: a named column, an ordered sequence of nullable
scalar values (`none` is a missing cell). -/
structure Column : Type where
  name : String
  dtype : Dtype
  cells : List (Option Value)
deriving DecidableEq, Repr

/-- Modelled from the spec: an in-memory table, an ordered sequence of named
columns together with the row count; the structural invariant (every column
has length `n_rows`) is checked by `Table.checkSchema`. -/
structure Table : Type where
  n_rows : Nat
  cols : List Column
deriving DecidableEq, Repr

/-- Classification is by storage type (spec 4.1). -/
def Column.is_numeric (c : Column) : Bool :=
  c.dtype == Dtype.numeric

/-- Non-null values of a column, in order. -/
def Column.nonNullValues (c : Column) : List Value :=
  c.cells.filterMap id

/-- Number of null cells of a column. -/
def Column.missingCount (c : Column) : Nat :=
  (c.cells.filter (fun o => o.isNone)).length

/-- Numeric values of a column (non-null cells holding a number), in order. -/
def Column.numValues (c : Column) : List ℚ :=
  c.cells.filterMap (fun o =>
    match o with
    | some (Value.num q) => some q
    | _ => none)

/-- Distinct elements of a list in first-seen order, carrying the set of
already seen elements. -/
def dedupFirstAux {α : Type} [DecidableEq α] (seen : List α) : List α → List α
  | [] => []
  | v :: rest =>
      if v ∈ seen then dedupFirstAux seen rest
      else v :: dedupFirstAux (v :: seen) rest

/-- Distinct elements of a list in first-seen order. -/
def dedupFirst {α : Type} [DecidableEq α] (l : List α) : List α :=
  dedupFirstAux [] l

/-- Modelled from the spec: the structural errors of section 7 (`SchemaError`). -/
inductive SchemaError : Type
  | duplicateColumns
  | raggedColumns
deriving DecidableEq, Repr

/-- A table has duplicate column names. -/
def Table.hasDupNames (t : Table) : Bool :=
  !(decide (t.cols.map Column.name).Nodup)

/-- A table has a column whose length differs from the row count. -/
def Table.ragged (t : Table) : Bool :=
  !(t.cols.all (fun c => c.cells.length == t.n_rows))

/-- Structural validity of a table (spec section 3 invariant). -/
def Table.structOk (t : Table) : Bool :=
  !t.hasDupNames && !t.ragged

/-- Modelled from the spec: the structural check shared by all core
components; only duplicate column names or ragged columns fail. -/
def Table.checkSchema (t : Table) : Except SchemaError Unit :=
  if t.hasDupNames then Except.error SchemaError.duplicateColumns
  else if t.ragged then Except.error SchemaError.raggedColumns
  else Except.ok ()

/-- Modelled from the spec: the per-column profile of section 3.  The source
reports a standard deviation; since a square root is irrational in general,
the field `var` holds its square (the population variance), which no claim
inspects. -/
structure ColumnProfile : Type where
  name : String
  dtype : Dtype
  non_null : Nat
  missing : Nat
  missing_share : ℚ
  unique : Nat
  is_numeric : Bool
  min : Option ℚ
  max : Option ℚ
  mean : Option ℚ
  var : Option ℚ
  example_values : List Value
deriving DecidableEq, Repr

/-- Mean of a list of rationals (`none` when empty). -/
def listMean (l : List ℚ) : Option ℚ :=
  if l.length = 0 then none else some (l.sum / l.length)

/-- Population variance of a list of rationals (`none` when empty). -/
def listVar (l : List ℚ) : Option ℚ :=
  match listMean l with
  | none => none
  | some m => some ((l.map (fun x => (x - m) * (x - m))).sum / l.length)

/-- Modelled from the spec: ColumnProfiler (section 4.1).  Counts, shares,
uniqueness and numeric summary of one column. -/
def profileColumn (rowCount : Nat) (c : Column) : ColumnProfile :=
  let nn := c.nonNullValues
  { name := c.name
    dtype := c.dtype
    non_null := nn.length
    missing := c.missingCount
    missing_share := if rowCount = 0 then 0 else (c.missingCount : ℚ) / rowCount
    unique := (dedupFirst nn).length
    is_numeric := c.is_numeric
    min := c.numValues.min?
    max := c.numValues.max?
    mean := listMean c.numValues
    var := listVar c.numValues
    example_values := (dedupFirst nn).take 5 }

/-- Modelled from the spec: the dataset summary of section 3. -/
structure DatasetSummary : Type where
  n_rows : Nat
  n_cols : Nat
  columns : List ColumnProfile
deriving DecidableEq, Repr

/-- Modelled from the spec: DatasetSummarizer (section 4.2), profile every
column in order. -/
def summarizeCore (t : Table) : DatasetSummary :=
  { n_rows := t.n_rows
    n_cols := t.cols.length
    columns := t.cols.map (profileColumn t.n_rows) }

/-- Modelled from the spec: `summarize_dataset`, the checked entry point of
DatasetSummarizer. -/
def summarize_dataset (t : Table) : Except SchemaError DatasetSummary :=
  t.checkSchema.map (fun _ => summarizeCore t)

/-- Modelled from the spec: one row of the MissingTable of section 3. -/
structure MissingEntry : Type where
  name : String
  missing_count : Nat
  missing_share : ℚ
deriving DecidableEq, Repr

/-- Modelled from the spec: MissingAnalyzer (section 4.3); empty when the
table has zero rows, else one entry per column with any missing value, in
column order. -/
def missingCore (t : Table) : List MissingEntry :=
  if t.n_rows = 0 then []
  else
    (t.cols.filter (fun c => c.missingCount != 0)).map
      (fun c => { name := c.name
                  missing_count := c.missingCount
                  missing_share := (c.missingCount : ℚ) / t.n_rows })

/-- Modelled from the spec: `missing_table`, the checked entry point of
MissingAnalyzer. -/
def missing_table (t : Table) : Except SchemaError (List MissingEntry) :=
  t.checkSchema.map (fun _ => missingCore t)

/-- Numeric pair of two cells: defined only when both hold a number. -/
def pairNum : Option Value → Option Value → Option (ℚ × ℚ)
  | some (Value.num x), some (Value.num y) => some (x, y)
  | _, _ => none

/-- Paired observations of two columns: rows where both cells hold a
number (pairwise-complete-observations semantics, spec 4.4). -/
def pairedObs (c1 c2 : Column) : List (ℚ × ℚ) :=
  (c1.cells.zip c2.cells).filterMap (fun p => pairNum p.1 p.2)

/-- Scaled covariance of a list of paired observations with `n` samples:
`n * sum (x*y) - sum x * sum y`, which is `n ^ 2` times the covariance. -/
def scaledCov (ps : List (ℚ × ℚ)) : ℚ :=
  (ps.length : ℚ) * (ps.map (fun p => p.1 * p.2)).sum
    - (ps.map Prod.fst).sum * (ps.map Prod.snd).sum

/-- Scaled variance of the first components of paired observations; zero
exactly when the first column is constant on the paired rows. -/
def scaledVarFst (ps : List (ℚ × ℚ)) : ℚ :=
  scaledCov (ps.map (fun p => (p.1, p.1)))

/-- Scaled variance of the second components of paired observations. -/
def scaledVarSnd (ps : List (ℚ × ℚ)) : ℚ :=
  scaledCov (ps.map (fun p => (p.2, p.2)))

/-- Entry of the correlation matrix.  Pearson r is `cov / sqrt vprod`,
irrational in general, so the entry is kept in the exact form
`val cov vprod` (the scaled statistics determine the same ratio as the
normalized ones); the exact value `1.0` is `val 1 1` and `undef` is the
null/undefined entry for zero-variance pairs (spec 4.4). -/
inductive CorrEntry : Type
  | undef
  | val (cov vprod : ℚ)
deriving DecidableEq, Repr

/-- Modelled from the spec: one Pearson entry (section 4.4).  The diagonal
is special-cased to exactly `1.0`; a pair with no common rows or with a
zero-variance member is left undefined. -/
def corrPair (c1 c2 : Column) : CorrEntry :=
  if c1.name = c2.name then CorrEntry.val 1 1
  else if (pairedObs c1 c2).length = 0 ∨ scaledVarFst (pairedObs c1 c2) = 0 ∨
      scaledVarSnd (pairedObs c1 c2) = 0 then CorrEntry.undef
  else CorrEntry.val (scaledCov (pairedObs c1 c2))
    (scaledVarFst (pairedObs c1 c2) * scaledVarSnd (pairedObs c1 c2))

/-- Numeric columns of a table, in order. -/
def numericCols (t : Table) : List Column :=
  t.cols.filter Column.is_numeric

/-- Modelled from the spec: CorrelationComputer (section 4.4 and scenario 5
of section 8): empty on a zero-row table or when fewer than two numeric
columns exist, else all pairs of numeric columns. -/
def corrCore (t : Table) : List ((String × String) × CorrEntry) :=
  if t.n_rows = 0 then []
  else
    let ncs := numericCols t
    if ncs.length < 2 then []
    else ncs.flatMap (fun c1 => ncs.map (fun c2 => ((c1.name, c2.name), corrPair c1 c2)))

/-- Modelled from the spec: `correlation_matrix`, the checked entry point of
CorrelationComputer. -/
def correlation_matrix (t : Table) : Except SchemaError (List ((String × String) × CorrEntry)) :=
  t.checkSchema.map (fun _ => corrCore t)

/-- Position of a value in the first-seen order of a list. -/
def firstSeenRank {α : Type} [DecidableEq α] (l : List α) (a : α) : Nat :=
  (dedupFirst l).indexOf a

/-- Ordering of category values: larger count first, ties broken by
first-seen order in the column (spec 4.5). -/
def catRel {α : Type} [DecidableEq α] (vals : List α) (a b : α) : Prop :=
  vals.count b < vals.count a ∨
    (vals.count a = vals.count b ∧ firstSeenRank vals a ≤ firstSeenRank vals b)

instance catRelDecidable {α : Type} [DecidableEq α] (vals : List α) :
    DecidableRel (catRel vals) := by
  intro a b
  unfold catRel
  infer_instance

/-- Modelled from the spec: the top-k value/count table of one column
(section 4.5): distinct non-null values counted, sorted by descending
count with ties in first-seen order, truncated to `top_k`. -/
def topCatColumn {α : Type} [DecidableEq α] (vals : List α) (top_k : Nat) :
    List (α × Nat) :=
  ((List.insertionSort (catRel vals) (dedupFirst vals)).take top_k).map
    (fun v => (v, vals.count v))

/-- Modelled from the spec: CategoryProfiler (section 4.5): non-numeric
columns with at least one non-null value, up to `max_columns` of them in
original order, each mapped to its top-k table. -/
def topCategoriesCore (t : Table) (max_columns top_k : Nat) :
    List (String × List (Value × Nat)) :=
  ((t.cols.filter (fun c => !c.is_numeric && c.nonNullValues.length != 0)).take
      max_columns).map
    (fun c => (c.name, topCatColumn c.nonNullValues top_k))

/-- Modelled from the spec: `top_categories`, the checked entry point of
CategoryProfiler. -/
def top_categories (t : Table) (max_columns top_k : Nat) :
    Except SchemaError (List (String × List (Value × Nat))) :=
  t.checkSchema.map (fun _ => topCategoriesCore t max_columns top_k)

/-- Modelled from the spec: the quality flags record of section 3. -/
structure QualityFlags : Type where
  quality_score : ℚ
  too_few_rows : Bool
  too_many_columns : Bool
  max_missing_share : ℚ
  too_many_missing : Bool
  has_constant_columns : Bool
  constant_columns_list : List String
  has_suspicious_id_duplicates : Bool
  suspicious_id_columns : List String
  has_missing_values : Bool
deriving DecidableEq, Repr

/-- Penalty weight for too few rows (named constant, spec section 9). -/
def W_TOO_FEW_ROWS : ℚ := 1 / 10

/-- Penalty weight for too many columns. -/
def W_TOO_MANY_COLUMNS : ℚ := 1 / 10

/-- Penalty weight for too many missing values. -/
def W_TOO_MANY_MISSING : ℚ := 3 / 10

/-- Proportionality weight of the constant-column penalty. -/
def W_CONSTANT : ℚ := 1 / 2

/-- Cap of the constant-column penalty. -/
def CAP_CONSTANT : ℚ := 3 / 10

/-- Proportionality weight of the suspicious-ID penalty. -/
def W_SUSPICIOUS : ℚ := 1 / 2

/-- Cap of the suspicious-ID penalty. -/
def CAP_SUSPICIOUS : ℚ := 3 / 10

/-- A character list contains the substring id, case-insensitively. -/
def containsIdChars : List Char → Bool
  | c1 :: c2 :: rest =>
      ((c1 == 'i' || c1 == 'I') && (c2 == 'd' || c2 == 'D')) ||
        containsIdChars (c2 :: rest)
  | _ => false

/-- A column name contains the substring id, case-insensitively (spec 4.6). -/
def nameHasId (s : String) : Bool :=
  containsIdChars s.toList

/-- A profiled column is constant: some non-null value and exactly one
distinct non-null value (spec 4.6). -/
def isConstantProfile (p : ColumnProfile) : Bool :=
  p.non_null != 0 && p.unique == 1

/-- A profiled column is a suspicious ID column: ID-like name and at least
one duplicate among its non-null values (spec 4.6). -/
def isSuspiciousIdProfile (p : ColumnProfile) : Bool :=
  nameHasId p.name && decide (p.unique < p.non_null)

/-- Maximum missing share across the missing table, 0 when it is empty. -/
def maxMissingShare (m : List MissingEntry) : ℚ :=
  (m.map MissingEntry.missing_share).foldr max 0

/-- Names of the constant columns of a summary, in column order. -/
def constantColumns (s : DatasetSummary) : List String :=
  (s.columns.filter isConstantProfile).map ColumnProfile.name

/-- Names of the suspicious ID columns of a summary, in column order. -/
def suspiciousIdColumns (s : DatasetSummary) : List String :=
  (s.columns.filter isSuspiciousIdProfile).map ColumnProfile.name

/-- Penalty proportional to `count / total`, capped by `cap`, zero when the
table has no columns. -/
def cappedPenalty (cap w : ℚ) (count total : Nat) : ℚ :=
  if total = 0 then 0 else min cap (w * count / total)

/-- Modelled from the spec: the pre-clamp quality score, 1.0 minus the
independent flag penalties and the two capped proportional penalties
(section 4.6). -/
def rawScore (s : DatasetSummary) (m : List MissingEntry) : ℚ :=
  1 - (if s.n_rows < 100 then W_TOO_FEW_ROWS else 0)
    - (if 100 < s.n_cols then W_TOO_MANY_COLUMNS else 0)
    - (if (1 : ℚ) / 2 < maxMissingShare m then W_TOO_MANY_MISSING else 0)
    - cappedPenalty CAP_CONSTANT W_CONSTANT (constantColumns s).length s.n_cols
    - cappedPenalty CAP_SUSPICIOUS W_SUSPICIOUS (suspiciousIdColumns s).length s.n_cols

/-- Modelled from the spec: QualityFlagEngine (section 4.6): boolean
heuristics and the composite score, 1.0 minus bounded penalties, clamped
to [0,1]. -/
def compute_quality_flags (s : DatasetSummary) (m : List MissingEntry) : QualityFlags :=
  { quality_score := max 0 (min 1 (rawScore s m))
    too_few_rows := decide (s.n_rows < 100)
    too_many_columns := decide (100 < s.n_cols)
    max_missing_share := maxMissingShare m
    too_many_missing := decide ((1 : ℚ) / 2 < maxMissingShare m)
    has_constant_columns := !(constantColumns s).isEmpty
    constant_columns_list := constantColumns s
    has_suspicious_id_duplicates := !(suspiciousIdColumns s).isEmpty
    suspicious_id_columns := suspiciousIdColumns s
    has_missing_values := decide (0 < maxMissingShare m) }

/-- Quality flags of a table through the whole pipeline (summary and
missing table feeding QualityFlagEngine), as both adapters call it. -/
def qualityFlagsCore (t : Table) : QualityFlags :=
  compute_quality_flags (summarizeCore t) (missingCore t)

/-- Checked quality-flag pipeline of a table. -/
def quality_flags_of_table (t : Table) : Except SchemaError QualityFlags :=
  t.checkSchema.map (fun _ => qualityFlagsCore t)

/-- Per-model usability verdict returned by the quality endpoints
(api.py, `ok_for_model`). -/
structure OkForModel : Type where
  regression : Bool
  classification : Bool
  clustering : Bool
  neural_network : Bool
deriving DecidableEq, Repr

/-- Usability derivation of POST /quality (api.py lines 76-81): regression
and classification need no missing values, clustering needs no constant
columns, the neural network needs the score to reach the caller-supplied
threshold. -/
def quality_ok_for_model (flags : QualityFlags) (threshold : ℚ) : OkForModel :=
  { regression := !flags.has_missing_values
    classification := !flags.has_missing_values
    clustering := !flags.has_constant_columns
    neural_network := decide (threshold ≤ flags.quality_score) }

/-- Usability derivation of POST /quality-from-csv (api.py lines 122-127):
regression and classification additionally need more than 10 rows,
clustering additionally needs more than 2 columns, and the neural-network
threshold is the fixed constant 0.7. -/
def quality_from_csv_ok_for_model (s : DatasetSummary) (flags : QualityFlags) : OkForModel :=
  { regression := !flags.has_missing_values && decide (10 < s.n_rows)
    classification := !flags.has_missing_values && decide (10 < s.n_rows)
    clustering := !flags.has_constant_columns && decide (2 < s.n_cols)
    neural_network := decide ((7 : ℚ) / 10 ≤ flags.quality_score) }

/-- Table built by POST /quality from the validated JSON object
(api.py line 69, `pd.DataFrame([request.data])`): one row whose cells are
the object's values, one column per key. -/
def qualityRequestTable (data : List (String × Option Value)) : Table :=
  { n_rows := 1
    cols := data.map (fun nv =>
      { name := nv.1
        dtype :=
          match nv.2 with
          | some (Value.num _) => Dtype.numeric
          | some (Value.bool _) => Dtype.boolean
          | _ => Dtype.text
        cells := [nv.2] }) }

/-- Full POST /quality handler result (api.py lines 67-81). -/
def quality_endpoint (data : List (String × Option Value)) (threshold : ℚ) : OkForModel :=
  quality_ok_for_model (qualityFlagsCore (qualityRequestTable data)) threshold

/-- Embeds the Python check `filename.endswith(".csv")` of api.py: the last
four characters are `.csv`. -/
def endsWithCsv (s : String) : Bool :=
  match s.toList.reverse with
  | c1 :: c2 :: c3 :: c4 :: _ =>
      c1 == 'v' && c2 == 's' && c3 == 'c' && c4 == '.'
  | _ => false

/-- Outcome of decoding and parsing an uploaded or on-disk CSV payload.
Parsing itself is external (pandas); the adapters only branch on its
outcome. -/
inductive ParseOutcome : Type
  | parsed (t : Table)
  | decodeFailure
  | parseFailure
deriving DecidableEq, Repr

/-- Result of the CLI loader: a table, or a user-facing bad-parameter
message (typer.BadParameter). -/
inductive CliLoadResult : Type
  | loaded (t : Table)
  | badParameter (msg : String)
deriving DecidableEq, Repr

/-- Embedded from cli.py `_load_csv` (HW03, lines 28-38): a missing path or
any read failure becomes a bad-parameter message; only a parsed table is
returned for profiling. -/
def cli_load_csv (pathExists : Bool) (outcome : ParseOutcome) : CliLoadResult :=
  if !pathExists then CliLoadResult.badParameter ("file not found")
  else
    match outcome with
    | ParseOutcome.parsed t => CliLoadResult.loaded t
    | _ => CliLoadResult.badParameter ("could not read CSV")

/-- HTTP response of POST /quality-from-csv: a status code and, on success,
the usability payload. -/
structure QualityCsvResponse : Type where
  status : Nat
  ok_for_model : Option OkForModel
deriving DecidableEq, Repr

/-- Embedded from api.py `quality_from_csv` (lines 95-142): 400 for a
filename not ending in .csv, 500 for any decode or parse failure, 200 with
the usability payload otherwise. -/
def api_quality_from_csv (filename : String) (outcome : ParseOutcome) : QualityCsvResponse :=
  if !(endsWithCsv filename) then { status := 400, ok_for_model := none }
  else
    match outcome with
    | ParseOutcome.parsed t =>
        { status := 200
          ok_for_model :=
            some (quality_from_csv_ok_for_model (summarizeCore t) (qualityFlagsCore t)) }
    | _ => { status := 500, ok_for_model := none }

/-- Entry of the in-memory rolling processing log (api.py line 30,
`_processing_stats`). -/
structure StatEntry : Type where
  filename : String
  timestamp : String
  rows : Nat
  cols : Nat
  quality_score : ℚ
  processing_time : ℚ
deriving DecidableEq, Repr

/-- HTTP response of POST /quality-flags-from-csv. -/
structure FlagsResponse : Type where
  status : Nat
  flags : Option QualityFlags
deriving DecidableEq, Repr

/-- Embedded from api.py `get_quality_flags_from_csv` (lines 147-199): the
only handler that appends to the processing log, one entry per successful
request; failures leave the log unchanged. -/
def api_quality_flags_from_csv (log : List StatEntry) (filename timestamp : String)
    (outcome : ParseOutcome) (elapsed : ℚ) : List StatEntry × FlagsResponse :=
  if !(endsWithCsv filename) then (log, { status := 400, flags := none })
  else
    match outcome with
    | ParseOutcome.parsed t =>
        let s := summarizeCore t
        let flags := qualityFlagsCore t
        (log ++ [{ filename := filename
                   timestamp := timestamp
                   rows := s.n_rows
                   cols := s.n_cols
                   quality_score := flags.quality_score
                   processing_time := elapsed }],
         { status := 200, flags := some flags })
    | _ => (log, { status := 500, flags := none })

/-- HTTP response of POST /summary-from-csv. -/
structure SummaryResponse : Type where
  status : Nat
  summary : Option DatasetSummary
deriving DecidableEq, Repr

/-- Embedded from api.py `get_summary_from_csv` (lines 202-250): profiles
the uploaded table; never touches the processing log. -/
def api_summary_from_csv (log : List StatEntry) (filename : String)
    (outcome : ParseOutcome) : List StatEntry × SummaryResponse :=
  if !(endsWithCsv filename) then (log, { status := 400, summary := none })
  else
    match outcome with
    | ParseOutcome.parsed t => (log, { status := 200, summary := some (summarizeCore t) })
    | _ => (log, { status := 500, summary := none })

/-- Embedded from api.py `get_benchmark_stats` (lines 380-412): reads the
last `limit` entries of the processing log and never modifies it. -/
def api_benchmark_stats (log : List StatEntry) (limit : Nat) :
    List StatEntry × List StatEntry :=
  (log, log.drop (log.length - limit))

/-- HTTP response of POST /missing-analysis-from-csv. -/
structure MissingAnalysisResponse : Type where
  status : Nat
  missing_by_column : Option (List MissingEntry)
  total_missing_cells : Option Nat
  high_missing_columns : Option (List String)
  has_any_missing : Option Bool
deriving DecidableEq, Repr

/-- Embedded from api.py `get_missing_analysis` (lines 253-300): per-column
missing detail, total missing cells, columns with share above 0.5, and an
any-missing flag; never touches the processing log. -/
def api_missing_analysis (log : List StatEntry) (filename : String)
    (outcome : ParseOutcome) : List StatEntry × MissingAnalysisResponse :=
  if !(endsWithCsv filename) then
    (log, { status := 400
            missing_by_column := none
            total_missing_cells := none
            high_missing_columns := none
            has_any_missing := none })
  else
    match outcome with
    | ParseOutcome.parsed t =>
        (log, { status := 200
                missing_by_column := some (missingCore t)
                total_missing_cells :=
                  some ((missingCore t).map MissingEntry.missing_count).sum
                high_missing_columns :=
                  some (((missingCore t).filter
                    (fun e => decide ((1 : ℚ) / 2 < e.missing_share))).map
                      MissingEntry.name)
                has_any_missing := some (!(missingCore t).isEmpty) })
    | _ =>
        (log, { status := 500
                missing_by_column := none
                total_missing_cells := none
                high_missing_columns := none
                has_any_missing := none })

/-- HTTP response of POST /quality-report-json. -/
structure QualityReportResponse : Type where
  status : Nat
  flags : Option QualityFlags
  correlation : Option (List ((String × String) × CorrEntry))
  categories : Option (List (String × List (Value × Nat)))
deriving DecidableEq, Repr

/-- Embedded from api.py `get_quality_report_json` (lines 303-377): the
combined report with the quality flags, optionally the correlation matrix
(only when requested and non-empty) and the top categories (max_columns 5,
top_k 5); never touches the processing log. -/
def api_quality_report_json (log : List StatEntry) (filename : String)
    (include_correlation include_categories : Bool) (outcome : ParseOutcome) :
    List StatEntry × QualityReportResponse :=
  if !(endsWithCsv filename) then
    (log, { status := 400, flags := none, correlation := none, categories := none })
  else
    match outcome with
    | ParseOutcome.parsed t =>
        (log, { status := 200
                flags := some (qualityFlagsCore t)
                correlation :=
                  if include_correlation && !(corrCore t).isEmpty
                  then some (corrCore t) else none
                categories :=
                  if include_categories
                  then some (topCategoriesCore t 5 5) else none })
    | _ =>
        (log, { status := 500, flags := none, correlation := none, categories := none })

/-- Numeric column helper for concrete test tables. -/
def numCol (name : String) (qs : List (Option ℚ)) : Column :=
  { name := name
    dtype := Dtype.numeric
    cells := qs.map (fun o => o.map Value.num) }

/-- Good dataset of the test suite (scenario 4): unique ids, two numeric
columns, five rows, no missing values. -/
def tGood : Table :=
  { n_rows := 5
    cols :=
      [numCol ("id") [some 1, some 2, some 3, some 4, some 5],
       numCol ("col1") [some 10, some 20, some 30, some 40, some 50],
       numCol ("col2") [some 100, some 200, some 300, some 400, some 500]] }

/-- Sample dataset of the test suite: age with a missing cell, height
complete, city categorical with a missing cell. -/
def tSample : Table :=
  { n_rows := 4
    cols :=
      [numCol ("age") [some 10, some 20, some 30, none],
       numCol ("height") [some 140, some 150, some 160, some 170],
       { name := "city"
         dtype := Dtype.text
         cells := [some (Value.str "A"), some (Value.str "B"), some (Value.str "A"), none] }] }

/-- Two numeric columns, one of them constant (scenario 6). -/
def tConstNum : Table :=
  { n_rows := 3
    cols :=
      [numCol ("c") [some 1, some 1, some 1],
       numCol ("x") [some 1, some 2, some 3]] }

/-- Zero-row table with two declared columns. -/
def tZeroRow : Table :=
  { n_rows := 0
    cols :=
      [numCol ("a") [],
       { name := "b", dtype := Dtype.text, cells := [] }] }

/-- One-row, one-column table used as a concrete uploaded file. -/
def tOneCell : Table :=
  { n_rows := 1
    cols := [numCol ("a") [some 5]] }

/-- Table with three rows and no columns at all. -/
def tNoCols : Table :=
  { n_rows := 3
    cols := [] }

/-- Clean 100-row table: enough rows, few columns, no missing values, no
constant column, no ID-like name. -/
def tBig : Table :=
  { n_rows := 100
    cols :=
      [{ name := "a"
         dtype := Dtype.boolean
         cells := (List.range 100).map (fun i => some (Value.bool (i % 2 == 0))) }] }

/-! General lemmas about the embedding. -/

theorem length_filterMap_id_add_filter_none {α : Type} (l : List (Option α)) :
    (l.filterMap id).length + (l.filter (fun o => o.isNone)).length = l.length := by
  induction l with
  | nil => rfl
  | cons a rest ih =>
      cases a <;> simp [List.filterMap_cons, List.filter_cons] <;> omega

theorem missingCount_le_length (c : Column) : c.missingCount ≤ c.cells.length := by
  unfold Column.missingCount
  exact List.length_filter_le _ _

theorem non_null_add_missing (c : Column) :
    c.nonNullValues.length + c.missingCount = c.cells.length :=
  length_filterMap_id_add_filter_none c.cells

theorem checkSchema_map_ok {α : Type} (t : Table) (x y : α) :
    t.checkSchema.map (fun _ => x) = Except.ok y ↔ (t.structOk = true ∧ y = x) := by
  unfold Table.checkSchema Table.structOk
  cases hd : t.hasDupNames <;> cases hr : t.ragged <;>
    simp [Except.map, eq_comm]

theorem structOk_length (t : Table) (h : t.structOk = true) :
    ∀ c ∈ t.cols, c.cells.length = t.n_rows := by
  intro c hc
  unfold Table.structOk Table.ragged at h
  have hr : t.cols.all (fun c => c.cells.length == t.n_rows) = true := by
    cases hall : t.cols.all (fun c => c.cells.length == t.n_rows) <;>
      simp [hall] at h ⊢
  have := List.all_eq_true.mp hr c hc
  simpa using this

theorem structOk_nodup (t : Table) (h : t.structOk = true) :
    (t.cols.map Column.name).Nodup := by
  unfold Table.structOk Table.hasDupNames at h
  by_cases hn : (t.cols.map Column.name).Nodup
  · exact hn
  · simp [hn] at h

/-- C3: for every table accepted by `summarize_dataset`, each column profile
satisfies `non_null + missing = row count`, `missing_share ∈ [0,1]`,
`missing_share = missing / row_count` (0 when the row count is 0), and the
summary's `n_cols` equals the number of column profiles. -/
theorem claim_C3 (t : Table) (s : DatasetSummary)
    (h : summarize_dataset t = Except.ok s) :
    s.n_cols = s.columns.length ∧
    ∀ p ∈ s.columns,
      p.non_null + p.missing = s.n_rows ∧
      0 ≤ p.missing_share ∧ p.missing_share ≤ 1 ∧
      p.missing_share = (if s.n_rows = 0 then 0 else (p.missing : ℚ) / s.n_rows) ∧
      (s.n_rows = 0 → p.missing_share = 0) := by
  rw [summarize_dataset, checkSchema_map_ok] at h
  obtain ⟨hok, hs⟩ := h
  subst hs
  refine ⟨by simp [summarizeCore], ?_⟩
  intro p hp
  simp only [summarizeCore, List.mem_map] at hp
  obtain ⟨c, hc, hpc⟩ := hp
  have hlen : c.cells.length = t.n_rows := structOk_length t hok c hc
  subst hpc
  have hcount : c.nonNullValues.length + c.missingCount = t.n_rows := by
    rw [non_null_add_missing, hlen]
  have hmle : c.missingCount ≤ t.n_rows := by
    have := missingCount_le_length c
    omega
  constructor
  · simpa [profileColumn, summarizeCore] using hcount
  by_cases h0 : t.n_rows = 0
  · simp [profileColumn, summarizeCore, h0]
  · have hpos : (0 : ℚ) < (t.n_rows : ℚ) := by
      exact_mod_cast Nat.pos_of_ne_zero h0
    refine ⟨?_, ?_, ?_, ?_⟩
    · simp only [profileColumn, summarizeCore, if_neg h0]
      positivity
    · simp only [profileColumn, summarizeCore, if_neg h0]
      rw [div_le_one hpos]
      exact_mod_cast hmle
    · simp [profileColumn, summarizeCore, h0]
    · intro hzero
      exact absurd hzero h0

/-- Witness for C3 at the concrete sample table. -/
theorem claim_C3_witness :
    (summarizeCore tSample).n_cols = (summarizeCore tSample).columns.length ∧
    ∀ p ∈ (summarizeCore tSample).columns,
      p.non_null + p.missing = (summarizeCore tSample).n_rows ∧
      0 ≤ p.missing_share ∧ p.missing_share ≤ 1 ∧
      p.missing_share =
        (if (summarizeCore tSample).n_rows = 0 then 0
         else (p.missing : ℚ) / (summarizeCore tSample).n_rows) ∧
      ((summarizeCore tSample).n_rows = 0 → p.missing_share = 0) :=
  claim_C3 tSample (summarizeCore tSample) rfl

/-- C4: the missing table is empty exactly when the table has zero rows or
no missing cell anywhere; otherwise it has one entry per column with a
missing value, keyed by column name in column order, carrying that
column's missing count and share. -/
theorem claim_C4 (t : Table) (m : List MissingEntry)
    (h : missing_table t = Except.ok m) :
    (m = [] ↔ (t.n_rows = 0 ∨ ∀ c ∈ t.cols, c.missingCount = 0)) ∧
    (t.n_rows ≠ 0 →
      m.map MissingEntry.name =
        (t.cols.filter (fun c => c.missingCount != 0)).map Column.name ∧
      ∀ e ∈ m, ∃ c ∈ t.cols, c.missingCount ≠ 0 ∧
        e = { name := c.name
              missing_count := c.missingCount
              missing_share := (c.missingCount : ℚ) / t.n_rows }) := by
  rw [missing_table, checkSchema_map_ok] at h
  obtain ⟨-, hm⟩ := h
  subst hm
  unfold missingCore
  by_cases h0 : t.n_rows = 0
  · simp [h0]
  · rw [if_neg h0]
    refine ⟨?_, fun _ => ⟨?_, ?_⟩⟩
    · simp [h0, List.filter_eq_nil_iff]
    · rw [List.map_map]
      rfl
    · intro e he
      simp only [List.mem_map, List.mem_filter] at he
      obtain ⟨c, ⟨hc, hcm⟩, he⟩ := he
      exact ⟨c, hc, by simpa using hcm, he.symm⟩

/-- Witness for C4 at the concrete sample table, which has missing cells
and a nonzero row count. -/
theorem claim_C4_witness :
    (missingCore tSample = [] ↔
      (tSample.n_rows = 0 ∨ ∀ c ∈ tSample.cols, c.missingCount = 0)) ∧
    ((missingCore tSample).map MissingEntry.name =
      (tSample.cols.filter (fun c => c.missingCount != 0)).map Column.name ∧
     ∀ e ∈ missingCore tSample, ∃ c ∈ tSample.cols, c.missingCount ≠ 0 ∧
       e = { name := c.name
             missing_count := c.missingCount
             missing_share := (c.missingCount : ℚ) / tSample.n_rows }) :=
  ⟨(claim_C4 tSample (missingCore tSample) rfl).1,
   (claim_C4 tSample (missingCore tSample) rfl).2 (by decide)⟩

theorem checkSchema_ok_of_structOk (t : Table) (h : t.structOk = true) :
    t.checkSchema = Except.ok () := by
  unfold Table.structOk at h
  unfold Table.checkSchema
  cases hd : t.hasDupNames <;> cases hr : t.ragged <;> simp_all

theorem checkSchema_map_isOk {α : Type} (t : Table) (x : α) :
    (t.checkSchema.map (fun _ => x)).isOk = t.structOk := by
  unfold Table.checkSchema Table.structOk
  cases hd : t.hasDupNames <;> cases hr : t.ragged <;>
    simp [Except.map, Except.isOk, Except.toBool]

theorem cells_nil_of_zero_rows (t : Table) (h : t.structOk = true)
    (h0 : t.n_rows = 0) : ∀ c ∈ t.cols, c.cells = [] := by
  intro c hc
  have := structOk_length t h c hc
  rw [h0] at this
  exact List.length_eq_zero.mp this

/-- C2: every core component errs exactly on structural violations
(duplicate names or ragged columns), and content-degenerate inputs
(zero rows, zero columns, all-null columns) produce well-defined
empty/zero results instead of errors. -/
theorem claim_C2 (t : Table) :
    ((summarize_dataset t).isOk = t.structOk ∧
     (missing_table t).isOk = t.structOk ∧
     (correlation_matrix t).isOk = t.structOk ∧
     (∀ mc k, (top_categories t mc k).isOk = t.structOk) ∧
     (quality_flags_of_table t).isOk = t.structOk) ∧
    (t.structOk = false ↔
      (¬(t.cols.map Column.name).Nodup ∨ ∃ c ∈ t.cols, c.cells.length ≠ t.n_rows)) ∧
    (t.structOk = true → t.n_rows = 0 →
      missing_table t = Except.ok [] ∧
      correlation_matrix t = Except.ok [] ∧
      (∀ mc k, top_categories t mc k = Except.ok []) ∧
      ∀ p ∈ (summarizeCore t).columns,
        p.non_null = 0 ∧ p.missing = 0 ∧ p.unique = 0 ∧ p.missing_share = 0 ∧
        p.min = none ∧ p.max = none ∧ p.mean = none) ∧
    (t.cols = [] →
      summarizeCore t = { n_rows := t.n_rows, n_cols := 0, columns := [] } ∧
      missingCore t = [] ∧ corrCore t = [] ∧
      ∀ mc k, topCategoriesCore t mc k = []) ∧
    (∀ c ∈ t.cols, (∀ o ∈ c.cells, o = none) →
      (profileColumn t.n_rows c).non_null = 0 ∧
      (profileColumn t.n_rows c).min = none ∧
      (profileColumn t.n_rows c).max = none ∧
      (profileColumn t.n_rows c).mean = none) := by
  refine ⟨⟨?_, ?_, ?_, fun mc k => ?_, ?_⟩, ?_, ?_, ?_, ?_⟩
  · exact checkSchema_map_isOk t _
  · exact checkSchema_map_isOk t _
  · exact checkSchema_map_isOk t _
  · exact checkSchema_map_isOk t _
  · exact checkSchema_map_isOk t _
  · unfold Table.structOk Table.hasDupNames Table.ragged
    by_cases hn : (t.cols.map Column.name).Nodup
    · by_cases hr : ∀ c ∈ t.cols, c.cells.length = t.n_rows
      · have hall : t.cols.all (fun c => c.cells.length == t.n_rows) = true :=
          List.all_eq_true.mpr (fun c hc => by simpa using hr c hc)
        simp [hn, hall]
        exact hr
      · have hall : t.cols.all (fun c => c.cells.length == t.n_rows) = false := by
          cases h' : t.cols.all (fun c => c.cells.length == t.n_rows)
          · rfl
          · exact absurd (fun c hc => by simpa using List.all_eq_true.mp h' c hc) hr
        push_neg at hr
        constructor
        · intro _
          exact Or.inr hr
        · intro _
          simp [hall, hn]
    · simp [hn]
  · intro hok h0
    have hcells := cells_nil_of_zero_rows t hok h0
    have hcs := checkSchema_ok_of_structOk t hok
    refine ⟨?_, ?_, fun mc k => ?_, ?_⟩
    · rw [missing_table, hcs]
      simp [Except.map, missingCore, h0]
    · rw [correlation_matrix, hcs]
      simp [Except.map, corrCore, h0]
    · rw [top_categories, hcs]
      have hfil : t.cols.filter (fun c => !c.is_numeric && c.nonNullValues.length != 0) = [] := by
        rw [List.filter_eq_nil_iff]
        intro c hc
        simp [Column.nonNullValues, hcells c hc]
      simp [Except.map, topCategoriesCore, hfil]
    · intro p hp
      simp only [summarizeCore, List.mem_map] at hp
      obtain ⟨c, hc, hpc⟩ := hp
      subst hpc
      simp [profileColumn, hcells c hc, Column.nonNullValues, Column.missingCount,
        Column.numValues, dedupFirst, dedupFirstAux, listMean, h0]
  · intro hnil
    refine ⟨?_, ?_, ?_, fun mc k => ?_⟩
    · simp [summarizeCore, hnil]
    · simp [missingCore, hnil]
    · simp [corrCore, numericCols, hnil]
    · simp [topCategoriesCore, hnil]
  · intro c hc hnone
    have hnn : c.nonNullValues = [] := by
      simp only [Column.nonNullValues, List.filterMap_eq_nil_iff]
      intro o ho
      simp [hnone o ho]
    have hnv : c.numValues = [] := by
      simp only [Column.numValues, List.filterMap_eq_nil_iff]
      intro o ho
      simp [hnone o ho]
    simp [profileColumn, hnn, hnv, listMean]

/-- Witness for C2 at the structurally valid zero-row table, the
zero-column table, and an all-null column. -/
theorem claim_C2_witness :
    (missing_table tZeroRow = Except.ok [] ∧
     correlation_matrix tZeroRow = Except.ok [] ∧
     (∀ mc k, top_categories tZeroRow mc k = Except.ok []) ∧
     ∀ p ∈ (summarizeCore tZeroRow).columns,
       p.non_null = 0 ∧ p.missing = 0 ∧ p.unique = 0 ∧ p.missing_share = 0 ∧
       p.min = none ∧ p.max = none ∧ p.mean = none) ∧
    (summarizeCore tNoCols = { n_rows := tNoCols.n_rows, n_cols := 0, columns := [] } ∧
     missingCore tNoCols = [] ∧ corrCore tNoCols = [] ∧
     ∀ mc k, topCategoriesCore tNoCols mc k = []) ∧
    ((profileColumn tZeroRow.n_rows (numCol ("a") [])).non_null = 0 ∧
     (profileColumn tZeroRow.n_rows (numCol ("a") [])).min = none ∧
     (profileColumn tZeroRow.n_rows (numCol ("a") [])).max = none ∧
     (profileColumn tZeroRow.n_rows (numCol ("a") [])).mean = none) :=
  ⟨(claim_C2 tZeroRow).2.2.1 (by decide) rfl,
   (claim_C2 tNoCols).2.2.2.1 rfl,
   (claim_C2 tZeroRow).2.2.2.2 (numCol ("a") []) (by decide) (by simp [numCol])⟩

theorem cappedPenalty_nonneg (cap w : ℚ) (hcap : 0 ≤ cap) (hw : 0 ≤ w)
    (count total : Nat) : 0 ≤ cappedPenalty cap w count total := by
  unfold cappedPenalty
  split
  · exact le_refl 0
  · exact le_min hcap
      (div_nonneg (mul_nonneg hw (Nat.cast_nonneg _)) (Nat.cast_nonneg _))

theorem cappedPenalty_pos (cap w : ℚ) (hcap : 0 < cap) (hw : 0 < w)
    (count total : Nat) (hc : 0 < count) (ht : 0 < total) :
    0 < cappedPenalty cap w count total := by
  unfold cappedPenalty
  rw [if_neg (Nat.pos_iff_ne_zero.mp ht)]
  refine lt_min hcap (div_pos (mul_pos hw ?_) ?_)
  · exact_mod_cast hc
  · exact_mod_cast ht

theorem cappedPenalty_zero_count (cap w : ℚ) (hcap : 0 ≤ cap) (total : Nat) :
    cappedPenalty cap w 0 total = 0 := by
  unfold cappedPenalty
  split
  · rfl
  · simp [min_eq_right hcap]

/-- C1: the quality score of every table is within [0,1]; any flagged
problem forces it strictly below 1; and with none of the flagged problems
present it is strictly above 0.7. -/
theorem claim_C1 (t : Table) :
    (0 ≤ (qualityFlagsCore t).quality_score ∧ (qualityFlagsCore t).quality_score ≤ 1) ∧
    (((qualityFlagsCore t).too_few_rows = true ∨
      (qualityFlagsCore t).too_many_columns = true ∨
      (qualityFlagsCore t).too_many_missing = true ∨
      (qualityFlagsCore t).has_constant_columns = true ∨
      (qualityFlagsCore t).has_suspicious_id_duplicates = true) →
      (qualityFlagsCore t).quality_score < 1) ∧
    (((qualityFlagsCore t).too_few_rows = false ∧
      (qualityFlagsCore t).too_many_columns = false ∧
      (qualityFlagsCore t).too_many_missing = false ∧
      (qualityFlagsCore t).has_constant_columns = false ∧
      (qualityFlagsCore t).has_suspicious_id_duplicates = false) →
      (7 : ℚ) / 10 < (qualityFlagsCore t).quality_score) := by
  have hscore : (qualityFlagsCore t).quality_score =
      max 0 (min 1 (rawScore (summarizeCore t) (missingCore t))) := rfl
  have hp1 : 0 ≤ (if (summarizeCore t).n_rows < 100 then W_TOO_FEW_ROWS else 0) := by
    split <;> norm_num [W_TOO_FEW_ROWS]
  have hp2 : 0 ≤ (if 100 < (summarizeCore t).n_cols then W_TOO_MANY_COLUMNS else 0) := by
    split <;> norm_num [W_TOO_MANY_COLUMNS]
  have hp3 : 0 ≤ (if (1 : ℚ) / 2 < maxMissingShare (missingCore t)
      then W_TOO_MANY_MISSING else 0) := by
    split <;> norm_num [W_TOO_MANY_MISSING]
  have hp4 : 0 ≤ cappedPenalty CAP_CONSTANT W_CONSTANT
      (constantColumns (summarizeCore t)).length (summarizeCore t).n_cols :=
    cappedPenalty_nonneg _ _ (by norm_num [CAP_CONSTANT]) (by norm_num [W_CONSTANT]) _ _
  have hp5 : 0 ≤ cappedPenalty CAP_SUSPICIOUS W_SUSPICIOUS
      (suspiciousIdColumns (summarizeCore t)).length (summarizeCore t).n_cols :=
    cappedPenalty_nonneg _ _ (by norm_num [CAP_SUSPICIOUS]) (by norm_num [W_SUSPICIOUS]) _ _
  have hraw_le : rawScore (summarizeCore t) (missingCore t) ≤ 1 := by
    unfold rawScore
    linarith
  refine ⟨⟨?_, ?_⟩, ?_, ?_⟩
  · rw [hscore]
    exact le_max_left 0 _
  · rw [hscore]
    exact max_le (by norm_num) (min_le_left _ _)
  · intro hflag
    have hlt : rawScore (summarizeCore t) (missingCore t) < 1 := by
      rcases hflag with hf | hf | hf | hf | hf
      · have hcond : (summarizeCore t).n_rows < 100 := by
          have : decide ((summarizeCore t).n_rows < 100) = true := hf
          exact of_decide_eq_true this
        unfold rawScore
        rw [if_pos hcond]
        norm_num [W_TOO_FEW_ROWS]
        linarith
      · have hcond : 100 < (summarizeCore t).n_cols := by
          have : decide (100 < (summarizeCore t).n_cols) = true := hf
          exact of_decide_eq_true this
        unfold rawScore
        rw [if_pos hcond]
        norm_num [W_TOO_MANY_COLUMNS]
        linarith
      · have hcond : (1 : ℚ) / 2 < maxMissingShare (missingCore t) := by
          have : decide ((1 : ℚ) / 2 < maxMissingShare (missingCore t)) = true := hf
          exact of_decide_eq_true this
        unfold rawScore
        rw [if_pos hcond]
        norm_num [W_TOO_MANY_MISSING]
        linarith
      · have hne : constantColumns (summarizeCore t) ≠ [] := by
          intro hnil
          have : (qualityFlagsCore t).has_constant_columns =
              !(constantColumns (summarizeCore t)).isEmpty := rfl
          rw [hf, hnil] at this
          simp at this
        have hcount : 0 < (constantColumns (summarizeCore t)).length :=
          List.length_pos.mpr hne
        have hcols : 0 < (summarizeCore t).n_cols := by
          have hcne : (summarizeCore t).columns ≠ [] := by
            intro hnil
            apply hne
            unfold constantColumns
            rw [hnil]
            rfl
          have := List.length_pos.mpr hcne
          simpa [summarizeCore] using this
        have hpos := cappedPenalty_pos CAP_CONSTANT W_CONSTANT
          (by norm_num [CAP_CONSTANT]) (by norm_num [W_CONSTANT])
          (constantColumns (summarizeCore t)).length (summarizeCore t).n_cols
          hcount hcols
        unfold rawScore
        linarith
      · have hne : suspiciousIdColumns (summarizeCore t) ≠ [] := by
          intro hnil
          have : (qualityFlagsCore t).has_suspicious_id_duplicates =
              !(suspiciousIdColumns (summarizeCore t)).isEmpty := rfl
          rw [hf, hnil] at this
          simp at this
        have hcount : 0 < (suspiciousIdColumns (summarizeCore t)).length :=
          List.length_pos.mpr hne
        have hcols : 0 < (summarizeCore t).n_cols := by
          have hcne : (summarizeCore t).columns ≠ [] := by
            intro hnil
            apply hne
            unfold suspiciousIdColumns
            rw [hnil]
            rfl
          have := List.length_pos.mpr hcne
          simpa [summarizeCore] using this
        have hpos := cappedPenalty_pos CAP_SUSPICIOUS W_SUSPICIOUS
          (by norm_num [CAP_SUSPICIOUS]) (by norm_num [W_SUSPICIOUS])
          (suspiciousIdColumns (summarizeCore t)).length (summarizeCore t).n_cols
          hcount hcols
        unfold rawScore
        linarith
    rw [hscore]
    exact max_lt (by norm_num) (lt_of_le_of_lt (min_le_right _ _) hlt)
  · rintro ⟨hf1, hf2, hf3, hf4, hf5⟩
    have hc1 : ¬ ((summarizeCore t).n_rows < 100) := by
      have : decide ((summarizeCore t).n_rows < 100) = false := hf1
      exact of_decide_eq_false this
    have hc2 : ¬ (100 < (summarizeCore t).n_cols) := by
      have : decide (100 < (summarizeCore t).n_cols) = false := hf2
      exact of_decide_eq_false this
    have hc3 : ¬ ((1 : ℚ) / 2 < maxMissingShare (missingCore t)) := by
      have : decide ((1 : ℚ) / 2 < maxMissingShare (missingCore t)) = false := hf3
      exact of_decide_eq_false this
    have hc4 : constantColumns (summarizeCore t) = [] := by
      have : (!(constantColumns (summarizeCore t)).isEmpty) = false := hf4
      simpa [List.isEmpty_iff] using this
    have hc5 : suspiciousIdColumns (summarizeCore t) = [] := by
      have : (!(suspiciousIdColumns (summarizeCore t)).isEmpty) = false := hf5
      simpa [List.isEmpty_iff] using this
    have hraw : rawScore (summarizeCore t) (missingCore t) = 1 := by
      unfold rawScore
      rw [if_neg hc1, if_neg hc2, if_neg hc3, hc4, hc5]
      simp [cappedPenalty_zero_count CAP_CONSTANT W_CONSTANT (by norm_num [CAP_CONSTANT]),
        cappedPenalty_zero_count CAP_SUSPICIOUS W_SUSPICIOUS (by norm_num [CAP_SUSPICIOUS])]
    rw [hscore, hraw]
    norm_num

/-- Witness for C1: the sample table has fewer than 100 rows, so its score
is strictly below 1; the clean 100-row table scores above 0.7; and both
scores are within bounds. -/
theorem claim_C1_witness :
    (0 ≤ (qualityFlagsCore tSample).quality_score ∧
      (qualityFlagsCore tSample).quality_score ≤ 1) ∧
    (qualityFlagsCore tSample).quality_score < 1 ∧
    (7 : ℚ) / 10 < (qualityFlagsCore tBig).quality_score := by
  refine ⟨(claim_C1 tSample).1, (claim_C1 tSample).2.1 (Or.inl (by decide)), ?_⟩
  have hm : missingCore tBig = [] := by rfl
  have hf3 : (qualityFlagsCore tBig).too_many_missing = false := by
    have hnot : ¬ ((1 : ℚ) / 2 < maxMissingShare (missingCore tBig)) := by
      rw [hm]
      norm_num [maxMissingShare]
    exact decide_eq_false hnot
  exact (claim_C1 tBig).2.2 ⟨by decide, by decide, hf3, by decide, by decide⟩

theorem pairNum_swap (a b : Option Value) :
    pairNum b a = (pairNum a b).map Prod.swap := by
  cases a with
  | none => cases b with
    | none => rfl
    | some w => cases w <;> rfl
  | some v =>
      cases b with
      | none => cases v <;> rfl
      | some w => cases v <;> cases w <;> rfl

theorem zip_filterMap_pairNum_swap :
    ∀ (l1 l2 : List (Option Value)),
      (l2.zip l1).filterMap (fun p => pairNum p.1 p.2) =
        ((l1.zip l2).filterMap (fun p => pairNum p.1 p.2)).map Prod.swap := by
  intro l1
  induction l1 with
  | nil => intro l2; cases l2 <;> rfl
  | cons a l1' ih =>
      intro l2
      cases l2 with
      | nil => rfl
      | cons b l2' =>
          simp only [List.zip_cons_cons, List.filterMap_cons]
          rw [pairNum_swap a b]
          cases h : pairNum a b with
          | none => simpa using ih l2'
          | some q => simp [ih l2']

theorem pairedObs_swap (c1 c2 : Column) :
    pairedObs c2 c1 = (pairedObs c1 c2).map Prod.swap :=
  zip_filterMap_pairNum_swap c1.cells c2.cells

theorem scaledCov_map_swap (ps : List (ℚ × ℚ)) :
    scaledCov (ps.map Prod.swap) = scaledCov ps := by
  unfold scaledCov
  have h1 : (ps.map Prod.swap).map (fun p => p.1 * p.2) =
      ps.map (fun p => p.1 * p.2) := by
    rw [List.map_map]
    refine List.map_congr_left (fun p _ => ?_)
    exact mul_comm p.2 p.1
  have h2 : (ps.map Prod.swap).map Prod.fst = ps.map Prod.snd := by
    rw [List.map_map]; rfl
  have h3 : (ps.map Prod.swap).map Prod.snd = ps.map Prod.fst := by
    rw [List.map_map]; rfl
  rw [h1, h2, h3, List.length_map]
  ring

theorem scaledVarFst_map_swap (ps : List (ℚ × ℚ)) :
    scaledVarFst (ps.map Prod.swap) = scaledVarSnd ps := by
  unfold scaledVarFst scaledVarSnd
  rw [List.map_map]
  rfl

theorem scaledVarSnd_map_swap (ps : List (ℚ × ℚ)) :
    scaledVarSnd (ps.map Prod.swap) = scaledVarFst ps := by
  unfold scaledVarFst scaledVarSnd
  rw [List.map_map]
  rfl

theorem corrPair_symm (c1 c2 : Column) : corrPair c2 c1 = corrPair c1 c2 := by
  unfold corrPair
  by_cases h : c1.name = c2.name
  · rw [if_pos h.symm, if_pos h]
  · rw [if_neg (fun hh => h hh.symm), if_neg h]
    rw [pairedObs_swap c1 c2, scaledVarFst_map_swap, scaledVarSnd_map_swap,
      scaledCov_map_swap, List.length_map]
    exact if_congr (by tauto) rfl (by rw [mul_comm])

/-- C5: the correlation matrix is restricted to numeric columns, empty when
fewer than two numeric columns exist, symmetric, exactly 1.0 on the
diagonal, and undefined (not 0 or NaN) off-diagonal whenever a member of
the pair has zero variance on the paired rows. -/
theorem claim_C5 (t : Table) (m : List ((String × String) × CorrEntry))
    (h : correlation_matrix t = Except.ok m) :
    (∀ e ∈ m, ∃ c1 ∈ numericCols t, ∃ c2 ∈ numericCols t,
        e.1 = (c1.name, c2.name) ∧ e.2 = corrPair c1 c2) ∧
    ((numericCols t).length < 2 → m = []) ∧
    (∀ a b en, ((a, b), en) ∈ m → ((b, a), en) ∈ m) ∧
    (∀ a en, ((a, a), en) ∈ m → en = CorrEntry.val 1 1) ∧
    (∀ c1 c2 : Column, c1.name ≠ c2.name →
      (scaledVarFst (pairedObs c1 c2) = 0 ∨ scaledVarSnd (pairedObs c1 c2) = 0) →
      corrPair c1 c2 = CorrEntry.undef) := by
  rw [correlation_matrix, checkSchema_map_ok] at h
  obtain ⟨-, hm⟩ := h
  subst hm
  have hzero : ∀ c1 c2 : Column, c1.name ≠ c2.name →
      (scaledVarFst (pairedObs c1 c2) = 0 ∨ scaledVarSnd (pairedObs c1 c2) = 0) →
      corrPair c1 c2 = CorrEntry.undef := by
    intro c1 c2 hne hv
    unfold corrPair
    rw [if_neg hne, if_pos (by tauto)]
  unfold corrCore
  by_cases h0 : t.n_rows = 0
  · rw [if_pos h0]
    exact ⟨fun e he => absurd he (List.not_mem_nil e),
      fun _ => rfl, fun a b en hin => absurd hin (List.not_mem_nil _),
      fun a en hin => absurd hin (List.not_mem_nil _), hzero⟩
  · rw [if_neg h0]
    by_cases h2 : (numericCols t).length < 2
    · rw [if_pos h2]
      exact ⟨fun e he => absurd he (List.not_mem_nil e),
        fun _ => rfl, fun a b en hin => absurd hin (List.not_mem_nil _),
        fun a en hin => absurd hin (List.not_mem_nil _), hzero⟩
    · rw [if_neg h2]
      have hmem : ∀ e ∈ (numericCols t).flatMap
          (fun c1 => (numericCols t).map
            (fun c2 => ((c1.name, c2.name), corrPair c1 c2))),
          ∃ c1 ∈ numericCols t, ∃ c2 ∈ numericCols t,
            e = ((c1.name, c2.name), corrPair c1 c2) := by
        intro e he
        rw [List.mem_flatMap] at he
        obtain ⟨c1, hc1, he⟩ := he
        rw [List.mem_map] at he
        obtain ⟨c2, hc2, he⟩ := he
        exact ⟨c1, hc1, c2, hc2, he.symm⟩
      refine ⟨?_, ?_, ?_, ?_, hzero⟩
      · intro e he
        obtain ⟨c1, hc1, c2, hc2, he⟩ := hmem e he
        exact ⟨c1, hc1, c2, hc2, by rw [he], by rw [he]⟩
      · intro hlt
        exact absurd hlt h2
      · intro a b en hin
        obtain ⟨c1, hc1, c2, hc2, he⟩ := hmem _ hin
        have ha : a = c1.name := congrArg (fun q => q.1.1) he
        have hb : b = c2.name := congrArg (fun q => q.1.2) he
        have hen : en = corrPair c1 c2 := congrArg (fun q => q.2) he
        rw [List.mem_flatMap]
        refine ⟨c2, hc2, ?_⟩
        rw [List.mem_map]
        refine ⟨c1, hc1, ?_⟩
        rw [ha, hb, hen, corrPair_symm]
      · intro a en hin
        obtain ⟨c1, hc1, c2, hc2, he⟩ := hmem _ hin
        have ha : a = c1.name := congrArg (fun q => q.1.1) he
        have hb : a = c2.name := congrArg (fun q => q.1.2) he
        have hen : en = corrPair c1 c2 := congrArg (fun q => q.2) he
        rw [hen]
        unfold corrPair
        rw [if_pos (by rw [← ha, ← hb])]

/-- Witness for C5: the constant/non-constant numeric pair has an undefined
off-diagonal entry, and a single numeric column yields an empty matrix. -/
theorem claim_C5_witness :
    corrPair (numCol ("c") [some 1, some 1, some 1])
        (numCol ("x") [some 1, some 2, some 3]) = CorrEntry.undef ∧
    corrCore tOneCell = [] := by
  constructor
  · apply (claim_C5 tConstNum (corrCore tConstNum) rfl).2.2.2.2
    · decide
    · left
      norm_num [scaledVarFst, scaledCov, pairedObs, pairNum, numCol,
        List.filterMap, List.zip, List.zipWith]
  · exact (claim_C5 tOneCell (corrCore tOneCell) rfl).2.1 (by decide)

theorem mem_dedupFirstAux {α : Type} [DecidableEq α] (l : List α) :
    ∀ (seen : List α) (a : α),
      a ∈ dedupFirstAux seen l ↔ (a ∈ l ∧ a ∉ seen) := by
  induction l with
  | nil => intro seen a; simp [dedupFirstAux]
  | cons v rest ih =>
      intro seen a
      by_cases hv : v ∈ seen <;> simp only [dedupFirstAux, if_pos, if_neg, hv,
        ite_true, ite_false, List.mem_cons, ih] <;>
        constructor
      · rintro ⟨h1, h2⟩
        exact ⟨Or.inr h1, h2⟩
      · rintro ⟨h1 | h1, h2⟩
        · subst h1; exact absurd hv h2
        · exact ⟨h1, h2⟩
      · rintro (h | ⟨h1, h2⟩)
        · subst h; exact ⟨Or.inl rfl, hv⟩
        · refine ⟨Or.inr h1, fun hs => h2 (Or.inr hs)⟩
      · rintro ⟨h1 | h1, h2⟩
        · exact Or.inl h1
        · by_cases hav : a = v
          · exact Or.inl hav
          · refine Or.inr ⟨h1, fun hs => ?_⟩
            rcases hs with h | h
            · exact hav h
            · exact h2 h

theorem mem_dedupFirst {α : Type} [DecidableEq α] (l : List α) (a : α) :
    a ∈ dedupFirst l ↔ a ∈ l := by
  unfold dedupFirst
  rw [mem_dedupFirstAux]
  simp

theorem nodup_dedupFirstAux {α : Type} [DecidableEq α] (l : List α) :
    ∀ seen : List α, (dedupFirstAux seen l).Nodup := by
  induction l with
  | nil => intro seen; exact List.nodup_nil
  | cons v rest ih =>
      intro seen
      by_cases hv : v ∈ seen
      · simpa [dedupFirstAux, hv] using ih seen
      · rw [dedupFirstAux, if_neg hv]
        refine List.Nodup.cons ?_ (ih (v :: seen))
        intro hmem
        have := (mem_dedupFirstAux rest (v :: seen) v).mp hmem
        exact this.2 (List.mem_cons_self v seen)

theorem nodup_dedupFirst {α : Type} [DecidableEq α] (l : List α) :
    (dedupFirst l).Nodup :=
  nodup_dedupFirstAux l []

instance catRelTotal {α : Type} [DecidableEq α] (vals : List α) :
    IsTotal α (catRel vals) := by
  constructor
  intro a b
  unfold catRel
  rcases Nat.lt_trichotomy (vals.count a) (vals.count b) with h | h | h
  · exact Or.inr (Or.inl h)
  · rcases Nat.le_total (firstSeenRank vals a) (firstSeenRank vals b) with hr | hr
    · exact Or.inl (Or.inr ⟨h, hr⟩)
    · exact Or.inr (Or.inr ⟨h.symm, hr⟩)
  · exact Or.inl (Or.inl h)

instance catRelTrans {α : Type} [DecidableEq α] (vals : List α) :
    IsTrans α (catRel vals) := by
  constructor
  intro a b c hab hbc
  unfold catRel at hab hbc ⊢
  rcases hab with h1 | ⟨h1, h1'⟩ <;> rcases hbc with h2 | ⟨h2, h2'⟩
  · exact Or.inl (lt_trans h2 h1)
  · exact Or.inl (h2 ▸ h1)
  · exact Or.inl (h1 ▸ h2)
  · exact Or.inr ⟨h1.trans h2, le_trans h1' h2'⟩

theorem topCatColumn_mem {α : Type} [DecidableEq α] (vals : List α) (k : Nat) :
    ∀ p ∈ topCatColumn vals k, p.1 ∈ vals ∧ p.2 = vals.count p.1 := by
  intro p hp
  unfold topCatColumn at hp
  rw [List.mem_map] at hp
  obtain ⟨v, hv, hpv⟩ := hp
  have hvl : v ∈ List.insertionSort (catRel vals) (dedupFirst vals) :=
    (List.take_sublist _ _).subset hv
  have hvd : v ∈ dedupFirst vals := (List.mem_insertionSort _).mp hvl
  have hvv : v ∈ vals := (mem_dedupFirst vals v).mp hvd
  subst hpv
  exact ⟨hvv, rfl⟩

theorem topCatColumn_length_le {α : Type} [DecidableEq α] (vals : List α) (k : Nat) :
    (topCatColumn vals k).length ≤ k := by
  unfold topCatColumn
  rw [List.length_map]
  exact List.length_take_le k _

theorem topCatColumn_sorted {α : Type} [DecidableEq α] (vals : List α) (k : Nat) :
    (topCatColumn vals k).Pairwise (fun p q =>
      q.2 < p.2 ∨ (p.2 = q.2 ∧ firstSeenRank vals p.1 < firstSeenRank vals q.1)) := by
  have hsorted : (List.insertionSort (catRel vals) (dedupFirst vals)).Pairwise
      (catRel vals) :=
    List.sorted_insertionSort (catRel vals) (dedupFirst vals)
  have hnodup : (List.insertionSort (catRel vals) (dedupFirst vals)).Nodup :=
    ((List.perm_insertionSort (catRel vals) (dedupFirst vals)).nodup_iff).mpr
      (nodup_dedupFirst vals)
  have hand := hsorted.and hnodup
  have htake := hand.sublist (List.take_sublist k _)
  have hstrong : ((List.insertionSort (catRel vals) (dedupFirst vals)).take k).Pairwise
      (fun a b => vals.count b < vals.count a ∨
        (vals.count a = vals.count b ∧ firstSeenRank vals a < firstSeenRank vals b)) := by
    refine htake.imp_of_mem ?_
    intro a b ha hb hr
    have hamem : a ∈ dedupFirst vals :=
      (List.mem_insertionSort _).mp ((List.take_sublist _ _).subset ha)
    have hbmem : b ∈ dedupFirst vals :=
      (List.mem_insertionSort _).mp ((List.take_sublist _ _).subset hb)
    obtain ⟨hcat, hne⟩ := hr
    rcases hcat with h | ⟨heq, hle⟩
    · exact Or.inl h
    · refine Or.inr ⟨heq, lt_of_le_of_ne hle ?_⟩
      intro hranks
      exact hne ((List.indexOf_inj hamem hbmem).mp hranks)
  unfold topCatColumn
  rw [List.pairwise_map]
  exact hstrong

/-- C6: for every column, `topCatColumn` returns at most `top_k` pairs whose
counts are taken over the non-null values, sorted by strictly descending
count with ties broken by first-seen order; the table-level result maps only
non-numeric columns; and the documented example
city = [A, B, A, null] with top 2 yields [(A, 2), (B, 1)]. -/
theorem claim_C6 :
    (∀ (vals : List Value) (k : Nat),
      (topCatColumn vals k).length ≤ k ∧
      (∀ p ∈ topCatColumn vals k, p.1 ∈ vals ∧ p.2 = vals.count p.1) ∧
      (topCatColumn vals k).Pairwise (fun p q =>
        q.2 < p.2 ∨ (p.2 = q.2 ∧ firstSeenRank vals p.1 < firstSeenRank vals q.1))) ∧
    (∀ (t : Table) (mc k : Nat) res, top_categories t mc k = Except.ok res →
      ∀ e ∈ res, ∃ c ∈ t.cols, c.is_numeric = false ∧ c.nonNullValues ≠ [] ∧
        e = (c.name, topCatColumn c.nonNullValues k)) ∧
    topCatColumn [Value.str "A", Value.str "B", Value.str "A"] 2 =
      [(Value.str "A", 2), (Value.str "B", 1)] := by
  refine ⟨fun vals k => ⟨topCatColumn_length_le vals k, topCatColumn_mem vals k,
    topCatColumn_sorted vals k⟩, ?_, by decide⟩
  intro t mc k res hres e he
  rw [top_categories, checkSchema_map_ok] at hres
  obtain ⟨-, hr⟩ := hres
  subst hr
  unfold topCategoriesCore at he
  rw [List.mem_map] at he
  obtain ⟨c, hc, he⟩ := he
  have hc2 : c ∈ t.cols.filter (fun c => !c.is_numeric && c.nonNullValues.length != 0) :=
    (List.take_sublist _ _).subset hc
  rw [List.mem_filter] at hc2
  obtain ⟨hmem, hcond⟩ := hc2
  have hnum : c.is_numeric = false := by
    cases h : c.is_numeric <;> simp [h] at hcond ⊢
  have hnn : c.nonNullValues ≠ [] := by
    intro hnil
    rw [Bool.and_eq_true] at hcond
    rw [hnil] at hcond
    simp at hcond
  exact ⟨c, hmem, hnum, hnn, he.symm⟩

/-- Witness for C6: the table-level clause instantiated at the sample table,
whose only eligible column is city. -/
theorem claim_C6_witness :
    ∀ e ∈ topCategoriesCore tSample 5 2, ∃ c ∈ tSample.cols,
      c.is_numeric = false ∧ c.nonNullValues ≠ [] ∧
      e = (c.name, topCatColumn c.nonNullValues 2) :=
  claim_C6.2.1 tSample 5 2 (topCategoriesCore tSample 5 2) rfl

/-- Counterexample for C7: on POST /quality the clustering verdict ignores
the column count, so a two-column table with no constant columns is
declared usable for clustering although `n_cols > 2` fails. -/
theorem claim_C7_counterexample :
    (quality_endpoint [("a", none), ("b", none)] ((7 : ℚ) / 10)).clustering = true ∧
    ¬((qualityFlagsCore (qualityRequestTable [("a", none), ("b", none)])).has_constant_columns
        = false ∧
      2 < (summarizeCore (qualityRequestTable [("a", none), ("b", none)])).n_cols) := by
  constructor
  · decide
  · rintro ⟨-, h⟩
    exact absurd h (by decide)

/-- C7 amended: the usability derivations each endpoint actually computes.
POST /quality: regression and classification iff no missing values,
clustering iff no constant columns (without any column-count condition),
neural network iff the caller-supplied threshold is met.
POST /quality-from-csv: regression and classification iff no missing values
and more than 10 rows, clustering iff no constant columns and more than 2
columns, neural network iff the score reaches the fixed threshold 0.7. -/
theorem claim_C7_amended :
    (∀ (data : List (String × Option Value)) (threshold : ℚ),
      ((quality_endpoint data threshold).regression = true ↔
        (qualityFlagsCore (qualityRequestTable data)).has_missing_values = false) ∧
      ((quality_endpoint data threshold).classification = true ↔
        (qualityFlagsCore (qualityRequestTable data)).has_missing_values = false) ∧
      ((quality_endpoint data threshold).clustering = true ↔
        (qualityFlagsCore (qualityRequestTable data)).has_constant_columns = false) ∧
      ((quality_endpoint data threshold).neural_network = true ↔
        threshold ≤ (qualityFlagsCore (qualityRequestTable data)).quality_score)) ∧
    (∀ (s : DatasetSummary) (f : QualityFlags),
      ((quality_from_csv_ok_for_model s f).regression = true ↔
        (f.has_missing_values = false ∧ 10 < s.n_rows)) ∧
      ((quality_from_csv_ok_for_model s f).classification = true ↔
        (f.has_missing_values = false ∧ 10 < s.n_rows)) ∧
      ((quality_from_csv_ok_for_model s f).clustering = true ↔
        (f.has_constant_columns = false ∧ 2 < s.n_cols)) ∧
      ((quality_from_csv_ok_for_model s f).neural_network = true ↔
        (7 : ℚ) / 10 ≤ f.quality_score)) := by
  constructor
  · intro data threshold
    refine ⟨?_, ?_, ?_, ?_⟩ <;>
      simp [quality_endpoint, quality_ok_for_model]
  · intro s f
    refine ⟨?_, ?_, ?_, ?_⟩ <;>
      simp [quality_from_csv_ok_for_model]

/-- Counterexample for C8: a syntactically valid .csv filename whose payload
cannot be decoded is answered with status 500, which is not a 4xx status. -/
theorem claim_C8_counterexample :
    (api_quality_from_csv ("data.csv") ParseOutcome.decodeFailure).status = 500 ∧
    ¬(400 ≤ (api_quality_from_csv ("data.csv") ParseOutcome.decodeFailure).status ∧
      (api_quality_from_csv ("data.csv") ParseOutcome.decodeFailure).status < 500) := by
  constructor
  · decide
  · rintro ⟨-, h⟩
    exact absurd h (by decide)

/-- C8 amended: load failures are surfaced to the CLI as a user-facing
bad-parameter message and no profiling occurs there; the HTTP endpoint
returns 400 only for a filename not ending in .csv, while decode and parse
failures of an accepted filename are answered with 500, in both cases with
no profiling payload. -/
theorem claim_C8_amended :
    (∀ (pathExists : Bool) (outcome : ParseOutcome),
      (outcome = ParseOutcome.decodeFailure ∨ outcome = ParseOutcome.parseFailure ∨
        pathExists = false) →
      ∃ msg, cli_load_csv pathExists outcome = CliLoadResult.badParameter msg) ∧
    (∀ (filename : String) (outcome : ParseOutcome),
      endsWithCsv filename = false →
      api_quality_from_csv filename outcome = { status := 400, ok_for_model := none }) ∧
    (∀ (filename : String) (outcome : ParseOutcome),
      endsWithCsv filename = true →
      (outcome = ParseOutcome.decodeFailure ∨ outcome = ParseOutcome.parseFailure) →
      api_quality_from_csv filename outcome = { status := 500, ok_for_model := none }) := by
  refine ⟨?_, ?_, ?_⟩
  · intro pathExists outcome h
    cases pathExists
    · exact ⟨"file not found", rfl⟩
    · rcases h with h | h | h
      · subst h; exact ⟨"could not read CSV", rfl⟩
      · subst h; exact ⟨"could not read CSV", rfl⟩
      · exact absurd h (by decide)
  · intro filename outcome h
    unfold api_quality_from_csv
    rw [h]
    rfl
  · intro filename outcome h hout
    unfold api_quality_from_csv
    rw [h]
    rcases hout with h' | h' <;> subst h' <;> rfl

/-- Witness for C8 amended at concrete inputs: a parse failure on an
existing path, a non-csv filename, and a decode failure on a csv name. -/
theorem claim_C8_witness :
    (∃ msg, cli_load_csv true ParseOutcome.parseFailure =
      CliLoadResult.badParameter msg) ∧
    api_quality_from_csv ("a.txt") ParseOutcome.parseFailure =
      { status := 400, ok_for_model := none } ∧
    api_quality_from_csv ("a.csv") ParseOutcome.decodeFailure =
      { status := 500, ok_for_model := none } :=
  ⟨claim_C8_amended.1 true ParseOutcome.parseFailure (Or.inr (Or.inl rfl)),
   claim_C8_amended.2.1 ("a.txt") ParseOutcome.parseFailure (by decide),
   claim_C8_amended.2.2 ("a.csv") ParseOutcome.decodeFailure (by decide) (Or.inl rfl)⟩

/-- Counterexample for C9: a file successfully processed by the
summary-from-csv endpoint (status 200) appends no entry at all to the
processing log, so not every processed file appends exactly one entry. -/
theorem claim_C9_counterexample :
    (api_summary_from_csv [] ("a.csv") (ParseOutcome.parsed tOneCell)).2.status = 200 ∧
    (api_summary_from_csv [] ("a.csv") (ParseOutcome.parsed tOneCell)).1 = [] := by
  constructor
  · decide
  · decide

/-- C9 amended: only the quality-flags-from-csv endpoint appends to the
rolling log, exactly one entry with the six documented fields per
successful request; its failures and the summary-from-csv,
missing-analysis-from-csv and quality-report-json endpoints leave the log
unchanged, and the benchmark endpoint only reads it. -/
theorem claim_C9_amended :
    (∀ (log : List StatEntry) (fn ts : String) (t : Table) (elapsed : ℚ),
      endsWithCsv fn = true →
      (api_quality_flags_from_csv log fn ts (ParseOutcome.parsed t) elapsed).1 =
        log ++ [{ filename := fn
                  timestamp := ts
                  rows := (summarizeCore t).n_rows
                  cols := (summarizeCore t).n_cols
                  quality_score := (qualityFlagsCore t).quality_score
                  processing_time := elapsed }]) ∧
    (∀ (log : List StatEntry) (fn ts : String) (outcome : ParseOutcome) (elapsed : ℚ),
      (outcome = ParseOutcome.decodeFailure ∨ outcome = ParseOutcome.parseFailure ∨
        endsWithCsv fn = false) →
      (api_quality_flags_from_csv log fn ts outcome elapsed).1 = log) ∧
    (∀ (log : List StatEntry) (fn : String) (outcome : ParseOutcome),
      (api_summary_from_csv log fn outcome).1 = log) ∧
    (∀ (log : List StatEntry) (fn : String) (outcome : ParseOutcome),
      (api_missing_analysis log fn outcome).1 = log) ∧
    (∀ (log : List StatEntry) (fn : String) (ic icat : Bool) (outcome : ParseOutcome),
      (api_quality_report_json log fn ic icat outcome).1 = log) ∧
    (∀ (log : List StatEntry) (limit : Nat),
      (api_benchmark_stats log limit).1 = log ∧
      (api_benchmark_stats log limit).2 = log.drop (log.length - limit)) := by
  refine ⟨?_, ?_, ?_, ?_, ?_, ?_⟩
  · intro log fn ts t elapsed h
    unfold api_quality_flags_from_csv
    rw [h]
    rfl
  · intro log fn ts outcome elapsed h
    unfold api_quality_flags_from_csv
    cases hcsv : endsWithCsv fn
    · rfl
    · rcases h with h' | h' | h'
      · subst h'; rfl
      · subst h'; rfl
      · rw [hcsv] at h'
        exact absurd h' (by decide)
  · intro log fn outcome
    unfold api_summary_from_csv
    cases hcsv : endsWithCsv fn
    · rfl
    · cases outcome <;> rfl
  · intro log fn outcome
    unfold api_missing_analysis
    cases hcsv : endsWithCsv fn
    · rfl
    · cases outcome <;> rfl
  · intro log fn ic icat outcome
    unfold api_quality_report_json
    cases hcsv : endsWithCsv fn
    · rfl
    · cases outcome <;> rfl
  · intro log limit
    exact ⟨rfl, rfl⟩

/-- Witness for C9 amended at concrete inputs: one successful flags request
appends its single entry, a failed one and a summary request do not. -/
theorem claim_C9_witness :
    (api_quality_flags_from_csv [] ("a.csv") ("t0") (ParseOutcome.parsed tOneCell) 1).1 =
      [] ++ [{ filename := "a.csv"
               timestamp := "t0"
               rows := (summarizeCore tOneCell).n_rows
               cols := (summarizeCore tOneCell).n_cols
               quality_score := (qualityFlagsCore tOneCell).quality_score
               processing_time := 1 }] ∧
    (api_quality_flags_from_csv [] ("a.csv") ("t0") ParseOutcome.parseFailure 1).1 = [] ∧
    (api_summary_from_csv [] ("a.csv") ParseOutcome.parseFailure).1 = [] :=
  ⟨claim_C9_amended.1 [] ("a.csv") ("t0") tOneCell 1 (by decide),
   claim_C9_amended.2.1 [] ("a.csv") ("t0") ParseOutcome.parseFailure 1 (Or.inr (Or.inl rfl)),
   claim_C9_amended.2.2.1 [] ("a.csv") ParseOutcome.parseFailure⟩

/-- C10: POST /quality always profiles a single-row table built from the
validated JSON object, so its row count is 1 and the too-few-rows flag is
set on every such request. -/
theorem claim_C10 (data : List (String × Option Value)) (threshold : ℚ) :
    (qualityRequestTable data).n_rows = 1 ∧
    (summarizeCore (qualityRequestTable data)).n_rows = 1 ∧
    (qualityFlagsCore (qualityRequestTable data)).too_few_rows = true ∧
    quality_endpoint data threshold =
      quality_ok_for_model (qualityFlagsCore (qualityRequestTable data)) threshold :=
  ⟨rfl, rfl, rfl, rfl⟩

end EdaCli
